import Mathlib

/-!
Shallow embedding of the chart-processing core of the blueprint-workflows
repository: three CI entry points that walk a Helm-chart listing and, per
chart, run unit tests (`helm-test`), refresh dependency locks
(`helm-dependency-update`) or validate manifests (`manifest-validation`),
aggregating per-chart outcomes into a report table and a process verdict.

External collaborators (the chart-management tool, the YAML listing, the
git-diff change detector) enter the model as explicit inputs: each chart
input record carries the data the source reads for that chart, including
the outcome the external tool would return for it.
-/

namespace BlueprintWorkflows

/-- Outcome of one external chart-management-tool invocation: the integer
exit code plus captured standard output and standard error, as returned by
`utilsHelmChart.unittest` and friends. -/
structure ExecResult where
  exitCode : Int
  stdout : String
  stderr : String
deriving DecidableEq, Repr

/-- JavaScript `a || b` on strings: the empty string is falsy, every other
string is truthy. -/
def jsOr (a b : String) : String :=
  if a = "" then b else a

/-- The status field of `TestResult` in the helm-test action. -/
inductive Status where
  | passed
  | failed
  | skipped
  | disabled
deriving DecidableEq, Repr

/-- The `TestResult` interface of the helm-test action: chart identifier,
status, optional reason, relative path for display. -/
structure TestResult where
  chart : String
  status : Status
  reason : Option String
  relativePath : String
deriving DecidableEq, Repr

/-- Everything `processChart` reads about one chart: its listing key and
relative path, whether `isFunctionEnabled(dir, helmChartTest, true)` holds,
whether the pipeline options resolve the truthy `--update-snapshot` key
(`readPipelineFeatureOptions` not `false` and the key truthy), and the
outcome the external `unittest` invocation returns for this chart. -/
structure TestChartInput where
  key : String
  relativePath : String
  enabled : Bool
  updateSnapshot : Bool
  tool : ExecResult
deriving DecidableEq, Repr

/-- The option list `processChart` assembles for the `unittest` call. -/
def testToolOptions (c : TestChartInput) : List String :=
  if c.updateSnapshot then ["--update-snapshot"] else []

/-- `processChart` from the helm-test action. Returns the `TestResult`
together with the invocation log: the list of chart keys for which the
external tool was invoked (empty or a singleton, since the source invokes
`unittest` at most once per chart). -/
def processChart (c : TestChartInput) : TestResult × List String :=
  if ¬ c.enabled then
    (⟨c.key, .disabled, some "Disabled by .ci.config.yaml", c.relativePath⟩, [])
  else
    let result := c.tool
    if result.exitCode = -1 ∧ result.stderr = "No tests directory found" then
      (⟨c.key, .skipped, some "No tests directory", c.relativePath⟩, [c.key])
    else if result.exitCode = 0 then
      (⟨c.key, .passed, none, c.relativePath⟩, [c.key])
    else
      (⟨c.key, .failed,
        some (jsOr result.stderr (jsOr result.stdout "Unknown error")),
        c.relativePath⟩, [c.key])

/-- The helm-test `run` body processes every chart key with `processChart`
via `Promise.all(chartKeys.map(...))`: the fulfilled array holds one result
per key, positionally. -/
def testRunResults (charts : List TestChartInput) : List TestResult :=
  charts.map (fun c => (processChart c).1)

/-- `results.filter((r) => r.status === 'failed')` from the helm-test run. -/
def failedResults (results : List TestResult) : List TestResult :=
  results.filter (fun r => decide (r.status = .failed))

/-- JavaScript `Array.join(', ')` over the failed chart names. -/
def joinComma : List String → String
  | [] => ""
  | [x] => x
  | x :: y :: ys => x ++ ", " ++ joinComma (y :: ys)

/-- The process-failure signal of the helm-test run: `core.setFailed` is
called with the message naming the failed charts exactly when
`failedResults.length > 0`; otherwise no failure is signalled. -/
def testRunFailure (results : List TestResult) : Option String :=
  let failed := failedResults results
  if failed.length > 0 then
    some ("Helm tests failed for: " ++ joinComma (failed.map (fun r => r.chart)))
  else
    none

/-! ## Dependency-update action -/

/-- Everything the dependency-update `run` reads about one chart: the
listing key, the relative path, the verdict of
`isFunctionEnabled(dir, helmChartDependencyUpdate, true)`, and the outcome
the external `DependencyUpdate` invocation returns for this chart (the row
the source builds does not inspect it, but the claims quantify over it). -/
structure DepChartInput where
  key : String
  relativePath : String
  enabled : Bool
  tool : ExecResult
deriving DecidableEq, Repr

/-- The per-chart body shared by both branches of the dependency-update
`run`: when enabled, the tool is invoked and the row gets the check glyph;
when disabled, no invocation and the exclamation glyph. The second
component is the invocation log for this chart. -/
def depUpdateStep (c : DepChartInput) : List String × List String :=
  if c.enabled then
    ([c.key, "✅", c.relativePath], [c.key])
  else
    ([c.key, ":heavy_exclamation_mark:", c.relativePath], [])

/-- The parallel branch of the dependency-update `run`:
`Promise.all(helmChartKeys.map(...))` fulfils with one row per key,
positionally. -/
def depUpdateParallel (charts : List DepChartInput) : List (List String) :=
  charts.map (fun c => (depUpdateStep c).1)

/-- The sequential branch of the dependency-update `run`: a `for` loop
pushing one row per key onto `tableRows`. -/
def depUpdateSequentialAux (charts : List DepChartInput) (tableRows : List (List String)) :
    List (List String) :=
  match charts with
  | [] => tableRows
  | c :: rest => depUpdateSequentialAux rest (tableRows ++ [(depUpdateStep c).1])

/-- The sequential branch started from the empty `tableRows`. -/
def depUpdateSequential (charts : List DepChartInput) : List (List String) :=
  depUpdateSequentialAux charts []

/-! ## Manifest-validation action -/

/-- The per-functionality option flags the validation `run` probes from the
chart-local pipeline configuration (`--dependency-update` defaults to
enabled when unspecified). -/
structure ValOptions where
  skipCrds : Bool
  skipTests : Bool
  includeCrds : Bool
  dependencyUpdate : Bool
deriving DecidableEq, Repr

/-- The `helmOptions` list the validation `run` assembles, in push order. -/
def resolveHelmOptions (o : ValOptions) : List String :=
  (if o.skipCrds then ["--skip-crds"] else []) ++
  (if o.skipTests then ["--skip-tests"] else []) ++
  (if o.includeCrds then ["--include-crds"] else []) ++
  (if o.dependencyUpdate then ["--dependency-update"] else [])

/-- Everything the validation `run` reads about one chart: key, relative
path, the verdict of `isFunctionEnabled(dir, helmChartValidation, true)`,
and the resolved option flags. -/
structure ValChartInput where
  key : String
  relativePath : String
  enabled : Bool
  opts : ValOptions
deriving DecidableEq, Repr

/-- The per-chart body of the validation loop after the changed-set skip
check: when enabled, `template` is invoked with the resolved options and a
check-glyph row is pushed; when disabled, an exclamation-glyph row and no
invocation. The second component logs the invocation as the chart key with
the flags passed to the tool. -/
def validationStep (c : ValChartInput) : List String × List (String × List String) :=
  if c.enabled then
    ([c.key, "✅", c.relativePath], [(c.key, resolveHelmOptions c.opts)])
  else
    ([c.key, ":heavy_exclamation_mark:", c.relativePath], [])

/-- Observable effects of one validation run: the external-tool invocations
(chart key and flags, in order), whether any summary was written, the table
rows when a table was written (`none` when the run never reached the table),
and the chart keys that were passed to the feature gate
(`isFunctionEnabled`), in order. -/
structure Effects where
  invocations : List (String × List String)
  summaryWritten : Bool
  tableRows : Option (List (List String))
  gateChecked : List String
deriving DecidableEq, Repr

/-- Result of one whole run at process level: its effects plus the failure
message passed to `core.setFailed`, if any. -/
structure RunTrace where
  effects : Effects
  failureMsg : Option String
deriving DecidableEq, Repr

/-- A value thrown inside a run body: either an `Error` instance carrying a
message, or any other thrown value. -/
inductive Thrown where
  | err (msg : String)
  | nonError
deriving DecidableEq, Repr

/-- The shared `try`/`catch` wrapper of all three `run` functions: a normal
completion passes through; a thrown `Error` produces `core.setFailed` with
its message on top of the effects accumulated before the throw; any other
thrown value is checked against `instanceof Error`, fails the check, and
the run resolves with no failure signal and nothing further written. -/
def guardedRun (body : Except (Thrown × Effects) RunTrace) : RunTrace :=
  match body with
  | .ok t => t
  | .error (.err m, eff) => ⟨eff, some m⟩
  | .error (.nonError, eff) => ⟨eff, none⟩

/-- `String(process.env[...])` on a possibly-absent variable: JavaScript
stringifies `undefined` to the string "undefined". -/
def stringOfEnv : Option String → String
  | none => "undefined"
  | some s => s

/-- Modelled from the spec: `utils.assertNullOrEmpty` lives in the shared
utilities outside src. Per the spec it raises a configuration error with
the given message when the required value is missing or empty; the callers
stringify a possibly-absent environment variable first, so a missing
variable reaches it as the string "undefined". -/
def assertNullOrEmpty (value : String) (msg : String) : Except String Unit :=
  if value = "" ∨ value = "undefined" then .error msg else .ok ()

/-- The validation loop over the chart keys, mirroring the `for` loop with
its `continue` for keys outside the changed set. Returns the table rows,
the invocation log and the feature-gate log accumulated over the list. -/
def validationLoop (validateChangedOnly : Bool) (changed : List String) :
    List ValChartInput → List (List String) × List (String × List String) × List String
  | [] => ([], [], [])
  | c :: rest =>
    if validateChangedOnly ∧ ¬ c.key ∈ changed then
      validationLoop validateChangedOnly changed rest
    else
      let (rows, invs, gates) := validationLoop validateChangedOnly changed rest
      let (row, inv) := validationStep c
      (row :: rows, inv ++ invs, c.key :: gates)

/-- The body of the validation `run` up to the `catch`: assert the
workspace input, optionally short-circuit on an empty changed set (writing
only the informational summary), else run the loop and write the summary
with the table. `changed` models the set `detectChangedHelmCharts`
returns; it is only consulted when `validateChangedOnly` is set, as in the
source. -/
def validationBody (githubWorkspaceEnv : Option String) (validateChangedOnly : Bool)
    (changed : List String) (charts : List ValChartInput) :
    Except (Thrown × Effects) RunTrace :=
  match assertNullOrEmpty (stringOfEnv githubWorkspaceEnv) "Missing env `GITHUB_WORKSPACE`!" with
  | .error m => .error (.err m, ⟨[], false, none, []⟩)
  | .ok _ =>
    if validateChangedOnly ∧ changed = [] then
      .ok ⟨⟨[], true, none, []⟩, none⟩
    else
      let (rows, invs, gates) := validationLoop validateChangedOnly changed charts
      .ok ⟨⟨invs, true, some rows, gates⟩, none⟩

/-- The validation `run`: its body inside the top-level `try`/`catch`. -/
def validationRun (githubWorkspaceEnv : Option String) (validateChangedOnly : Bool)
    (changed : List String) (charts : List ValChartInput) : RunTrace :=
  guardedRun (validationBody githubWorkspaceEnv validateChangedOnly changed charts)

/-- Modelled from the spec: the outcome classification for the validation
and dependency-update functionalities happens inside the shared
`utils.HelmChart` helpers (`template`, `DependencyUpdate`), which are not
under src. Per the spec: exit code 0 yields `passed`; any non-zero exit
code yields `failed` with reason the captured standard error, or standard
output when standard error is empty. -/
def classifyToolOutcome (r : ExecResult) : Status × Option String :=
  if r.exitCode = 0 then (.passed, none)
  else (.failed, some (jsOr r.stderr r.stdout))

/-! ## Helper lemmas -/

theorem mem_failedResults {r : TestResult} {rs : List TestResult} :
    r ∈ failedResults rs ↔ r ∈ rs ∧ r.status = Status.failed := by
  simp [failedResults, List.mem_filter]

theorem testRunFailure_isSome_iff {rs : List TestResult} :
    (testRunFailure rs).isSome ↔ ∃ r ∈ rs, r.status = Status.failed := by
  constructor
  · intro hs
    by_cases h : (failedResults rs).length > 0
    · obtain ⟨r, hr⟩ := List.exists_mem_of_length_pos h
      exact ⟨r, (mem_failedResults.mp hr).1, (mem_failedResults.mp hr).2⟩
    · exfalso
      revert hs
      simp [testRunFailure, h]
  · rintro ⟨r, hr, hst⟩
    have hpos : (failedResults rs).length > 0 := List.length_pos.mpr fun hnil =>
      List.eq_nil_iff_forall_not_mem.mp hnil r (mem_failedResults.mpr ⟨hr, hst⟩)
    simp [testRunFailure, hpos]

theorem joinComma_contains_of_mem {x : String} :
    ∀ {l : List String}, x ∈ l → ∃ s t : List Char, (joinComma l).data = s ++ x.data ++ t
  | [], h => absurd h (List.not_mem_nil x)
  | [y], h => by
    rcases List.mem_singleton.mp h with rfl
    exact ⟨[], [], by simp [joinComma]⟩
  | y :: z :: zs, h => by
    rcases List.mem_cons.mp h with rfl | h2
    · exact ⟨[], (", " ++ joinComma (z :: zs)).data, by
        simp [joinComma, String.data_append]⟩
    · obtain ⟨s, t, ht⟩ := joinComma_contains_of_mem h2
      exact ⟨(y ++ ", ").data ++ s, t, by
        simp [joinComma, String.data_append, ht]⟩

theorem processChart_chart (c : TestChartInput) : (processChart c).1.chart = c.key := by
  simp only [processChart]
  split_ifs <;> rfl

theorem depUpdateStep_head (c : DepChartInput) : ((depUpdateStep c).1).head? = some c.key := by
  unfold depUpdateStep
  split_ifs <;> rfl

theorem depUpdateSequentialAux_eq (charts : List DepChartInput) :
    ∀ acc, depUpdateSequentialAux charts acc =
      acc ++ charts.map (fun c => (depUpdateStep c).1) := by
  induction charts with
  | nil => intro acc; simp [depUpdateSequentialAux]
  | cons c rest ih => intro acc; simp [depUpdateSequentialAux, ih]

/-! ## Claims -/

/-- C1: the helm-test run signals overall failure if and only if at least
one chart's result has status `failed` (so results made only of `passed`,
`skipped` and `disabled` yield success), and when failure is signalled the
failure message contains every failed chart's name. -/
theorem helm_test_verdict_iff_failed (charts : List TestChartInput) :
    ((testRunFailure (testRunResults charts)).isSome ↔
      ∃ r ∈ testRunResults charts, r.status = Status.failed) ∧
    (∀ msg, testRunFailure (testRunResults charts) = some msg →
      ∀ r ∈ testRunResults charts, r.status = Status.failed →
        ∃ s t : List Char, msg.data = s ++ r.chart.data ++ t) := by
  refine ⟨testRunFailure_isSome_iff, ?_⟩
  intro msg hmsg r hr hs
  have hr' : r ∈ failedResults (testRunResults charts) := mem_failedResults.mpr ⟨hr, hs⟩
  have hchart : r.chart ∈ (failedResults (testRunResults charts)).map (fun r => r.chart) :=
    List.mem_map_of_mem _ hr'
  obtain ⟨s, t, ht⟩ := joinComma_contains_of_mem hchart
  have hpos : (failedResults (testRunResults charts)).length > 0 :=
    List.length_pos.mpr fun hnil => by simp [hnil] at hr'
  have hmsg' : msg = "Helm tests failed for: " ++
      joinComma ((failedResults (testRunResults charts)).map (fun r => r.chart)) := by
    have := hmsg
    simp only [testRunFailure, hpos, if_pos, Option.some.injEq] at this
    exact this.symm
  refine ⟨("Helm tests failed for: ").data ++ s, t, ?_⟩
  simp [hmsg', String.data_append, ht]

/-- C1 witness: a single failing chart produces a failure message that
contains the chart's name. -/
theorem helm_test_verdict_iff_failed_witness :
    ∃ s t : List Char, ("Helm tests failed for: chartA").data = s ++ ("chartA").data ++ t :=
  (helm_test_verdict_iff_failed [⟨"chartA", "charts/chartA", true, false, ⟨1, "", "boom"⟩⟩]).2
    "Helm tests failed for: chartA" (by decide)
    ⟨"chartA", Status.failed, some "boom", "charts/chartA"⟩ (by decide) rfl

/-- C2: for every chart listing and every execution mode, the produced
result list has exactly one entry per chart of the working set and the
entries appear in the working set's order: positionally, entry `i` belongs
to chart `i`, in the helm-test parallel run and in both branches of the
dependency-update run. -/
theorem results_one_per_chart_in_order (tcs : List TestChartInput) (dcs : List DepChartInput) :
    (testRunResults tcs).length = tcs.length ∧
    (∀ i : Nat, ((testRunResults tcs)[i]?).map TestResult.chart =
      (tcs[i]?).map TestChartInput.key) ∧
    (depUpdateSequential dcs).length = dcs.length ∧
    (∀ i : Nat, ((depUpdateSequential dcs)[i]?).bind List.head? =
      (dcs[i]?).map DepChartInput.key) ∧
    (depUpdateParallel dcs).length = dcs.length ∧
    (∀ i : Nat, ((depUpdateParallel dcs)[i]?).bind List.head? =
      (dcs[i]?).map DepChartInput.key) := by
  have hseq : depUpdateSequential dcs = dcs.map (fun c => (depUpdateStep c).1) := by
    simp [depUpdateSequential, depUpdateSequentialAux_eq]
  refine ⟨by simp [testRunResults], fun i => ?_, by simp [hseq], fun i => ?_,
    by simp [depUpdateParallel], fun i => ?_⟩
  · simp only [testRunResults, List.getElem?_map]
    cases tcs[i]? with
    | none => rfl
    | some c => simp [processChart_chart]
  · rw [hseq]
    simp only [List.getElem?_map]
    cases dcs[i]? with
    | none => rfl
    | some c => simp [depUpdateStep_head]
  · simp only [depUpdateParallel, List.getElem?_map]
    cases dcs[i]? with
    | none => rfl
    | some c => simp [depUpdateStep_head]

/-- C5: for every chart listing and every per-chart tool outcome, the
sequential and the parallel branch of the dependency-update run build the
same table rows, in the same order. -/
theorem dep_update_sequential_eq_parallel (charts : List DepChartInput) :
    depUpdateSequential charts = depUpdateParallel charts := by
  simp [depUpdateSequential, depUpdateParallel, depUpdateSequentialAux_eq]

/-- C3: for the validation and dependency-update functionalities, the
shared-helper outcome classification maps exit code 0 to `passed` and any
non-zero exit code to `failed` with reason the captured standard error, or
the standard output when the standard error is empty. -/
theorem validation_dep_update_exit_classification (r : ExecResult) :
    ((classifyToolOutcome r).1 = Status.passed ↔ r.exitCode = 0) ∧
    ((classifyToolOutcome r).1 = Status.failed ↔ r.exitCode ≠ 0) ∧
    (r.exitCode = 0 → (classifyToolOutcome r).2 = none) ∧
    (r.exitCode ≠ 0 → r.stderr ≠ "" → (classifyToolOutcome r).2 = some r.stderr) ∧
    (r.exitCode ≠ 0 → r.stderr = "" → (classifyToolOutcome r).2 = some r.stdout) := by
  by_cases h : r.exitCode = 0
  · simp [classifyToolOutcome, h]
  · by_cases he : r.stderr = ""
    · simp [classifyToolOutcome, jsOr, h, he]
    · simp [classifyToolOutcome, jsOr, h, he]

/-- C3 witness: exit code 1 with empty standard error yields `failed` with
the standard output as the reason. -/
theorem validation_dep_update_exit_classification_witness :
    (classifyToolOutcome ⟨1, "boom on stdout", ""⟩).1 = Status.failed ∧
    (classifyToolOutcome ⟨1, "boom on stdout", ""⟩).2 = some "boom on stdout" :=
  ⟨(validation_dep_update_exit_classification ⟨1, "boom on stdout", ""⟩).2.1.mpr (by decide),
   (validation_dep_update_exit_classification ⟨1, "boom on stdout", ""⟩).2.2.2.2 (by decide) rfl⟩

/-- C4 counterexample: the sentinel exit code -1 alone does not yield
`skipped`: with a standard error other than "No tests directory found" the
chart is classified `failed`. -/
theorem sentinel_exit_code_alone_not_skipped :
    (processChart ⟨"chartA", "charts/chartA", true, false, ⟨-1, "", "boom"⟩⟩).1.status ≠
      Status.skipped ∧
    (processChart ⟨"chartA", "charts/chartA", true, false, ⟨-1, "", "boom"⟩⟩).1.status =
      Status.failed := by
  constructor <;> decide

/-- C4 (amended): for every enabled chart, exit code 0 yields `passed`; the
sentinel outcome — exit code -1 together with standard error "No tests
directory found" — yields `skipped` with reason "No tests directory"; every
other outcome with a non-zero exit code yields `failed` with reason the
standard error, falling back to the standard output, falling back to
"Unknown error". -/
theorem helm_test_outcome_classification (c : TestChartInput) (h : c.enabled = true) :
    (c.tool.exitCode = 0 →
      (processChart c).1.status = Status.passed ∧ (processChart c).1.reason = none) ∧
    (c.tool.exitCode = -1 ∧ c.tool.stderr = "No tests directory found" →
      (processChart c).1.status = Status.skipped ∧
      (processChart c).1.reason = some "No tests directory") ∧
    (c.tool.exitCode ≠ 0 →
      ¬(c.tool.exitCode = -1 ∧ c.tool.stderr = "No tests directory found") →
      (processChart c).1.status = Status.failed ∧
      (processChart c).1.reason =
        some (jsOr c.tool.stderr (jsOr c.tool.stdout "Unknown error"))) := by
  refine ⟨fun h0 => ?_, fun hsent => ?_, fun hnz hnsent => ?_⟩
  · have hns : ¬(c.tool.exitCode = -1 ∧ c.tool.stderr = "No tests directory found") := by
      rintro ⟨hm, -⟩
      rw [h0] at hm
      exact absurd hm (by decide)
    simp [processChart, h, hns, h0]
  · have hnz : ¬ c.tool.exitCode = 0 := by
      rw [hsent.1]
      decide
    simp [processChart, h, hsent.1, hsent.2, hnz]
  · simp [processChart, h, hnsent, hnz]

/-- C4 witness: an enabled chart whose tool outcome is the sentinel pair is
skipped with the expected reason, and exit code 2 with empty standard error
and output falls back to the generic reason. -/
theorem helm_test_outcome_classification_witness :
    ((processChart ⟨"chartA", "charts/chartA", true, false,
        ⟨-1, "", "No tests directory found"⟩⟩).1.status = Status.skipped ∧
      (processChart ⟨"chartA", "charts/chartA", true, false,
        ⟨-1, "", "No tests directory found"⟩⟩).1.reason = some "No tests directory") ∧
    (processChart ⟨"chartB", "charts/chartB", true, false,
        ⟨2, "", ""⟩⟩).1.reason = some "Unknown error" :=
  ⟨(helm_test_outcome_classification
      ⟨"chartA", "charts/chartA", true, false, ⟨-1, "", "No tests directory found"⟩⟩
      rfl).2.1 ⟨rfl, rfl⟩,
   ((helm_test_outcome_classification
      ⟨"chartB", "charts/chartB", true, false, ⟨2, "", ""⟩⟩
      rfl).2.2 (by decide) (by decide)).2⟩

/-- C6: for a chart whose configuration disables the functionality, the
external tool is never invoked (empty invocation log) and the chart's
result is exactly the `disabled` result — in the helm-test action the
`disabled` status with its configuration reason, in the validation action
the exclamation-glyph row. -/
theorem disabled_chart_no_tool_invocation (c : TestChartInput) (v : ValChartInput)
    (hc : c.enabled = false) (hv : v.enabled = false) :
    processChart c =
      (⟨c.key, Status.disabled, some "Disabled by .ci.config.yaml", c.relativePath⟩, []) ∧
    validationStep v = ([v.key, ":heavy_exclamation_mark:", v.relativePath], []) := by
  constructor
  · simp [processChart, hc]
  · simp [validationStep, hv]

/-- C6 witness: a concrete disabled chart yields the `disabled` result and
an empty invocation log in both actions. -/
theorem disabled_chart_no_tool_invocation_witness :
    processChart ⟨"chartA", "charts/chartA", false, false, ⟨0, "", ""⟩⟩ =
      (⟨"chartA", Status.disabled, some "Disabled by .ci.config.yaml", "charts/chartA"⟩, []) ∧
    validationStep ⟨"chartB", "charts/chartB", false, ⟨false, false, false, true⟩⟩ =
      (["chartB", ":heavy_exclamation_mark:", "charts/chartB"], []) :=
  disabled_chart_no_tool_invocation
    ⟨"chartA", "charts/chartA", false, false, ⟨0, "", ""⟩⟩
    ⟨"chartB", "charts/chartB", false, ⟨false, false, false, true⟩⟩ rfl rfl

theorem validationLoop_true_eq (changed : List String) :
    ∀ charts : List ValChartInput,
      validationLoop true changed charts =
        ((charts.filter (fun c => decide (c.key ∈ changed))).map (fun c => (validationStep c).1),
         ((charts.filter (fun c => decide (c.key ∈ changed))).map
            (fun c => (validationStep c).2)).flatten,
         (charts.filter (fun c => decide (c.key ∈ changed))).map ValChartInput.key)
  | [] => by simp [validationLoop]
  | c :: rest => by
    by_cases h : c.key ∈ changed
    · simp [validationLoop, h, validationLoop_true_eq changed rest, List.filter_cons]
    · simp [validationLoop, h, validationLoop_true_eq changed rest, List.filter_cons]

/-- C7: with change-filtering enabled and an empty changed set, the
validation run short-circuits as a no-op success: no tool invocation, the
informational summary written, no table, no charts passed to the feature
gate, and no failure signalled. -/
theorem empty_changed_set_short_circuit (env : String) (charts : List ValChartInput)
    (henv : env ≠ "" ∧ env ≠ "undefined") :
    validationRun (some env) true [] charts = ⟨⟨[], true, none, []⟩, none⟩ := by
  simp [validationRun, validationBody, assertNullOrEmpty, stringOfEnv, guardedRun,
    henv.1, henv.2]

/-- C7 witness: a concrete run with an empty changed set over a non-empty
listing performs no invocation and succeeds. -/
theorem empty_changed_set_short_circuit_witness :
    validationRun (some "/workspace") true []
      [⟨"chartA", "charts/chartA", true, ⟨false, false, false, true⟩⟩] =
      ⟨⟨[], true, none, []⟩, none⟩ :=
  empty_changed_set_short_circuit "/workspace"
    [⟨"chartA", "charts/chartA", true, ⟨false, false, false, true⟩⟩]
    ⟨by decide, by decide⟩

/-- C8: with change-filtering enabled and a non-empty changed set, the
validation run's working set is the listing filtered to changed keys in
listing order — the rows, the invocation log and the feature-gate log are
all built from exactly that filtered list — and a chart outside the changed
set never yields a row and is never passed to the feature gate. -/
theorem changed_set_filters_working_set (env : String) (changed : List String)
    (charts : List ValChartInput) (henv : env ≠ "" ∧ env ≠ "undefined")
    (hne : changed ≠ []) :
    (validationRun (some env) true changed charts =
      ⟨⟨((charts.filter (fun c => decide (c.key ∈ changed))).map
           (fun c => (validationStep c).2)).flatten,
        true,
        some ((charts.filter (fun c => decide (c.key ∈ changed))).map
           (fun c => (validationStep c).1)),
        (charts.filter (fun c => decide (c.key ∈ changed))).map ValChartInput.key⟩,
       none⟩) ∧
    (∀ c ∈ charts, c.key ∉ changed →
      (∀ rows, (validationRun (some env) true changed charts).effects.tableRows = some rows →
        ∀ row ∈ rows, row.head? ≠ some c.key) ∧
      c.key ∉ (validationRun (some env) true changed charts).effects.gateChecked) := by
  have hrun : validationRun (some env) true changed charts =
      ⟨⟨((charts.filter (fun c => decide (c.key ∈ changed))).map
           (fun c => (validationStep c).2)).flatten,
        true,
        some ((charts.filter (fun c => decide (c.key ∈ changed))).map
           (fun c => (validationStep c).1)),
        (charts.filter (fun c => decide (c.key ∈ changed))).map ValChartInput.key⟩,
       none⟩ := by
    simp [validationRun, validationBody, assertNullOrEmpty, stringOfEnv, guardedRun,
      henv.1, henv.2, hne, validationLoop_true_eq]
  refine ⟨hrun, fun c hc hout => ⟨fun rows hrows row hrow => ?_, fun hgate => ?_⟩⟩
  · rw [hrun] at hrows
    simp only [Option.some.injEq] at hrows
    rw [← hrows] at hrow
    obtain ⟨c', hc', hrow'⟩ := List.mem_map.mp hrow
    have hmem : c'.key ∈ changed := by
      have := List.mem_filter.mp hc'
      simpa using this.2
    have hhead : row.head? = some c'.key := by
      rw [← hrow']
      unfold validationStep
      split_ifs <;> rfl
    rw [hhead]
    intro heq
    exact hout (Option.some.inj heq ▸ hmem)
  · rw [hrun] at hgate
    simp only at hgate
    obtain ⟨c', hc', hkey⟩ := List.mem_map.mp hgate
    have hmem : c'.key ∈ changed := by
      have := List.mem_filter.mp hc'
      simpa using this.2
    rw [hkey] at hmem
    exact hout hmem

/-- C8 witness: with changed set {chartA}, chartB's key is absent from the
feature-gate log and from every table row of the concrete run. -/
theorem changed_set_filters_working_set_witness :
    "chartB" ∉ (validationRun (some "/workspace") true ["chartA"]
      [⟨"chartA", "charts/chartA", true, ⟨false, false, false, true⟩⟩,
       ⟨"chartB", "charts/chartB", true, ⟨false, false, false, true⟩⟩]).effects.gateChecked :=
  ((changed_set_filters_working_set "/workspace" ["chartA"]
      [⟨"chartA", "charts/chartA", true, ⟨false, false, false, true⟩⟩,
       ⟨"chartB", "charts/chartB", true, ⟨false, false, false, true⟩⟩]
      ⟨by decide, by decide⟩ (by decide)).2
    ⟨"chartB", "charts/chartB", true, ⟨false, false, false, true⟩⟩
    (by simp) (by decide)).2

/-- C9: when the workspace-root environment input is missing or empty, the
validation run aborts before any chart is processed: no tool invocation, no
summary, no table, nothing passed to the feature gate, and the process
failure signal carries the configuration message naming the missing
input. -/
theorem missing_workspace_aborts (env : Option String) (validateChangedOnly : Bool)
    (changed : List String) (charts : List ValChartInput)
    (h : env = none ∨ env = some "") :
    validationRun env validateChangedOnly changed charts =
      ⟨⟨[], false, none, []⟩, some "Missing env `GITHUB_WORKSPACE`!"⟩ := by
  rcases h with rfl | rfl
  · simp [validationRun, validationBody, assertNullOrEmpty, stringOfEnv, guardedRun]
  · simp [validationRun, validationBody, assertNullOrEmpty, stringOfEnv, guardedRun]

/-- C9 witness: the concrete run with the variable absent aborts with the
configuration message and empty effects. -/
theorem missing_workspace_aborts_witness :
    validationRun none false []
      [⟨"chartA", "charts/chartA", true, ⟨false, false, false, true⟩⟩] =
      ⟨⟨[], false, none, []⟩, some "Missing env `GITHUB_WORKSPACE`!"⟩ :=
  missing_workspace_aborts none false []
    [⟨"chartA", "charts/chartA", true, ⟨false, false, false, true⟩⟩] (Or.inl rfl)

/-- C10: a value thrown inside a run body that is not an `Error` instance
is swallowed by the top-level catch: the run resolves with no failure
signal and with exactly the effects accumulated before the throw — at
process level it is indistinguishable from a normal completion that
signalled no failure. -/
theorem non_error_throw_swallowed (eff : Effects) :
    guardedRun (.error (.nonError, eff)) = guardedRun (.ok ⟨eff, none⟩) ∧
    (guardedRun (.error (.nonError, eff))).failureMsg = none ∧
    (guardedRun (.error (.nonError, eff))).effects = eff := by
  exact ⟨rfl, rfl, rfl⟩

end BlueprintWorkflows
